import Mathlib

/-!
A shallow embedding of the runtime-command dispatcher of nage-rs
(`src/cmd/runtime.rs`) and proofs about its handlers. Rust maps and sets
are modelled as association lists / lists with set-like insert and remove;
interactive selections (the external terminal UI) become explicit choice
parameters; `anyhow` errors and Rust panics become an explicit `Failure`
type; calls into the audio and save collaborators are recorded in an
`Effects` trace. Strings are taken to be ASCII, so Rust's byte indices and
Lean's character indices agree.
-/

namespace Nage

/-- Modelled from the spec: `GameLoopResult` (crate `game::gloop`) is not
under `src/`; §3 lists the loop-signal values Continue, Retry(flag) and
Shutdown(flag) consumed by the handlers. -/
inductive GameLoopResult where
  | Continue : GameLoopResult
  | Retry : Bool → GameLoopResult
  | Shutdown : Bool → GameLoopResult
deriving DecidableEq

/-- The result of a runtime command (`CommandResult` in `runtime.rs`). -/
inductive CommandResult where
  | Submit : GameLoopResult → CommandResult
  | Output : String → CommandResult
deriving DecidableEq

/-- `CommandResult::retry()`. -/
def CommandResult.retry : CommandResult := .Submit (.Retry true)

/-- A dispatch failure: either an `anyhow!` error carrying a message, or a
Rust panic (out-of-bounds slice, `unwrap` on `None`). -/
inductive Failure where
  | err : String → Failure
  | panicked : String → Failure
deriving DecidableEq

/-- The session state. The field set is the one `runtime.rs` uses
(`player.history`, `player.lang`, `player.info_pages`, `player.log`,
`player.channels`, `player.notes`, `player.variables`); the `Player` type
itself lives outside `src/`. Sets and maps become lists (with set-like
insert/remove for `channels`); the `variables` map is the `vars` field,
renamed because `variables` is reserved in Lean. -/
structure Player where
  history : List String
  lang : String
  info_pages : List String
  log : List String
  channels : List String
  notes : List String
  vars : List (String × String)
deriving DecidableEq

/-- Modelled from the spec: `Player::back` is not under `src/`; §4.2 says the
Back handler "pop[s] one history entry (delegated to session)". -/
def Player.back (p : Player) : Except String Player :=
  .ok { p with history := p.history.dropLast }

/-- The audio subsystem as used by `runtime.rs` (`audio.players.keys()`,
`audio.get_player(channel)`). Modelled from the spec: the `Audio` type is
outside `src/`; each named channel player carries its "currently playing"
flag (§4.2 Sound). -/
structure Audio where
  players : List (String × Bool)
deriving DecidableEq

/-- `audio.players.keys()`. -/
def Audio.keys (a : Audio) : List String := a.players.map Prod.fst

/-- Modelled from the spec: `get_player(name) -> Result<Handle>` (§6), which
fails on a missing audio channel (§7). The handle is represented by the
channel's playing flag. -/
def Audio.get_player (a : Audio) (c : String) : Except String Bool :=
  match a.players.find? (fun nb => nb.1 == c) with
  | some nb => .ok nb.2
  | none => .error "missing audio channel"

/-- Modelled from the spec: the Save Manager (§6) exposes
`write(session, optional_slot, silent) -> Result<()>` and is outside `src/`;
a possible write failure is represented by `writeErr`. -/
structure SaveManager where
  writeErr : Option String
deriving DecidableEq

/-- Modelled from the spec: the Save Manager's `write` operation (§6). -/
def SaveManager.write (s : SaveManager) (_p : Player) (_slot : Option Nat) (_silent : Bool) :
    Except String Unit :=
  match s.writeErr with
  | some e => .error e
  | none => .ok ()

/-- `config.settings` with its `debug` flag. -/
structure Settings where
  debug : Bool
deriving DecidableEq

/-- The manifest, read through `config.settings.debug` in `runtime.rs`. -/
structure Manifest where
  settings : Settings
deriving DecidableEq

/-- The resource bundle as used by `runtime.rs`: translation names, info-page
contents, the optional audio subsystem, and prompt files. Prompt resolution
and `debug_info` are external collaborators (§4.2), so each prompt is
represented directly by its debug description. -/
structure Resources where
  translations : List String
  info_pages : List (String × String)
  audio : Option Audio
  prompts : List (String × List (String × String))
deriving DecidableEq

/-- Observable collaborator effects of one dispatch: the `stop()` invocations
on audio channels (in order), and the Save Manager `write` invocations with
their arguments. -/
structure Effects where
  stops : List String
  saveWrites : List (Player × Option Nat × Bool)
deriving DecidableEq

/-- No collaborator effect. -/
def Effects.empty : Effects := { stops := [], saveWrites := [] }

/-- The selections the interactive prompts hand back to the handlers; the
terminal UI itself is external (§6). -/
structure UserInput where
  choice : String
  choice2 : String
  index : Nat
  multi : List String
deriving DecidableEq

/-- `RuntimeCommand` in `runtime.rs`. -/
inductive RuntimeCommand where
  | Back | Lang | Info | Log | Sound | Save | Quit | Prompt | Notes | Variables
deriving DecidableEq

/-- `RuntimeCommand::is_normal`. -/
def RuntimeCommand.is_normal : RuntimeCommand → Bool
  | .Back | .Lang | .Info | .Log | .Sound | .Save | .Quit => true
  | _ => false

/-- `RuntimeCommand::back`. -/
def RuntimeCommand.back (player : Player) : Except Failure CommandResult × Player :=
  if player.history.length ≤ 1 then
    (.error (.err "Can't go back right now!"), player)
  else
    match player.back with
    | .error e => (.error (.err e), player)
    | .ok p' => (.ok (.Submit .Continue), p')

/-- `RuntimeCommand::lang`; `lang_choice` is the language the user picked in
the single-select over `translations.keys()`. -/
def RuntimeCommand.lang (player : Player) (translations : List String) (lang_choice : String) :
    Except Failure CommandResult × Player :=
  if translations.isEmpty then
    (.error (.err "No display languages loaded"), player)
  else
    (.ok CommandResult.retry, { player with lang := lang_choice })

/-- `RuntimeCommand::info`; `info_choice` is the page the user picked in the
single-select over the unlocked pages. `pages.get(..).unwrap()` panics when
the chosen page is missing from the content map. -/
def RuntimeCommand.info (unlocked_pages : List String) (pages : List (String × String))
    (info_choice : String) : Except Failure CommandResult :=
  if unlocked_pages.isEmpty then
    .error (.err "No info pages unlocked")
  else
    match pages.find? (fun nv => nv.1 == info_choice) with
    | none => .error (.panicked "called Option.unwrap on a None value")
    | some _ => .ok CommandResult.retry

/-- `log.chunks(5)`: partition into pages of five entries each, in order, the
last page possibly shorter. -/
def chunks5 : List String → List (List String)
  | [] => []
  | [a] => [[a]]
  | [a, b] => [[a, b]]
  | [a, b, c] => [[a, b, c]]
  | [a, b, c, d] => [[a, b, c, d]]
  | a :: b :: c :: d :: e :: rest => [a, b, c, d, e] :: chunks5 rest

/-- The page labels `chunk[0][..25]` followed by `"..."`; the Rust slice
panics at the first page whose first entry is shorter than 25 bytes. -/
def pageLabels : List (List String) → Except Failure (List String)
  | [] => .ok []
  | chunk :: rest =>
    match chunk with
    | [] => .error (.panicked "index out of bounds")
    | e :: _ =>
      if 25 ≤ e.length then
        match pageLabels rest with
        | .error f => .error f
        | .ok labs => .ok ((e.take 25 ++ "...") :: labs)
      else .error (.panicked "byte index 25 is out of bounds")

/-- `RuntimeCommand::log`; `page_choice` is the index the user picked in the
raw-select over the page labels. -/
def RuntimeCommand.log (log : List String) (page_choice : Nat) : Except Failure CommandResult :=
  if log.isEmpty then
    .error (.err "No log entries to display")
  else
    let pages := chunks5 log
    match pageLabels pages with
    | .error f => .error f
    | .ok _ =>
      match pages.get? page_choice with
      | none => .error (.panicked "called Option.unwrap on a None value")
      | some page_content => .ok (.Output ("\n" ++ String.intercalate "\n\n" page_content))

/-- `player.channels.insert(c)`: add to the set when not already present. -/
def setInsert (l : List String) (c : String) : List String :=
  if c ∈ l then l else l ++ [c]

/-- `player.channels.remove(c)`: drop the element from the set. -/
def setRemove (l : List String) (c : String) : List String :=
  l.filter (fun x => x != c)

/-- The per-channel loop of `RuntimeCommand::sound`: for each channel of the
audio map, insert it into the enabled set when selected, otherwise remove it
and stop its playback via `get_player(channel)?.stop()`. `getp` is the
(fallible) `get_player` lookup; the result is (outcome, enabled set, stop
trace), the partial state being kept when `get_player` fails mid-loop. -/
def soundLoop (getp : String → Except String Bool) (sel : List String) :
    List String → List String → List String → Except String Unit × List String × List String
  | chans, stops, [] => (.ok (), chans, stops)
  | chans, stops, c :: rest =>
    if c ∈ sel then
      soundLoop getp sel (setInsert chans c) stops rest
    else
      match getp c with
      | .error e => (.error e, setRemove chans c, stops)
      | .ok _ => soundLoop getp sel (setRemove chans c) (stops ++ [c]) rest

/-- `RuntimeCommand::sound` after the audio presence check, generic in the
`get_player` lookup: it runs `soundLoop` over the channel keys, commits the
loop's (possibly partial) channel set to the session and reports the
`stop()` trace. -/
def soundCore (getp : String → Except String Bool) (player : Player) (keys : List String)
    (sel : List String) : Except Failure CommandResult × Player × Effects :=
  match soundLoop getp sel player.channels [] keys with
  | (.error e, chans, stops) =>
    (.error (.err e), { player with channels := chans }, { stops := stops, saveWrites := [] })
  | (.ok _, chans, stops) =>
    (.ok CommandResult.retry, { player with channels := chans }, { stops := stops, saveWrites := [] })

/-- `RuntimeCommand::sound`; `sel` is the set of channels the user left
selected in the multi-select. -/
def RuntimeCommand.sound (player : Player) (audio_res : Option Audio) (sel : List String) :
    Except Failure CommandResult × Player × Effects :=
  match audio_res with
  | none => (.error (.err "No sound channels loaded"), player, Effects.empty)
  | some audio => soundCore audio.get_player player audio.keys sel

/-- `RuntimeCommand::prompt`; `file_choice` and `prompt_choice` are the
user's two single-select picks. -/
def RuntimeCommand.prompt (resources : Resources) (file_choice prompt_choice : String) :
    Except Failure CommandResult :=
  match resources.prompts.find? (fun fp => fp.1 == file_choice) with
  | none => .error (.err "Invalid prompt file")
  | some fp =>
    match fp.2.find? (fun pv => pv.1 == prompt_choice) with
    | none => .error (.err "Invalid prompt")
    | some pv => .ok (.Output pv.2)

/-- `RuntimeCommand::notes`. -/
def RuntimeCommand.notes (player : Player) : Except Failure CommandResult :=
  if player.notes.isEmpty then
    .error (.err "No notes applied")
  else
    .ok (.Output (String.intercalate ", " player.notes))

/-- `RuntimeCommand::variables`. -/
def RuntimeCommand.showVariables (player : Player) : Except Failure CommandResult :=
  if player.vars.isEmpty then
    .error (.err "No variables applied")
  else
    .ok (.Output ("\n" ++ String.intercalate "\n" (player.vars.map fun nv => nv.1 ++ ": " ++ nv.2)))

/-- The handler-selection body of `RuntimeCommand::run` (the `match self`
after the permission gate). -/
def RuntimeCommand.dispatch (cmd : RuntimeCommand) (player : Player) (saves : SaveManager)
    (resources : Resources) (inp : UserInput) : Except Failure CommandResult × Player × Effects :=
  match cmd with
  | .Back =>
    let rp := RuntimeCommand.back player
    (rp.1, rp.2, Effects.empty)
  | .Lang =>
    let rp := RuntimeCommand.lang player resources.translations inp.choice
    (rp.1, rp.2, Effects.empty)
  | .Info =>
    (RuntimeCommand.info player.info_pages resources.info_pages inp.choice, player, Effects.empty)
  | .Log => (RuntimeCommand.log player.log inp.index, player, Effects.empty)
  | .Sound => RuntimeCommand.sound player resources.audio inp.multi
  | .Save =>
    match saves.write player none false with
    | .error e => (.error (.err e), player, { stops := [], saveWrites := [(player, none, false)] })
    | .ok _ => (.ok (.Output "Saving... "), player, { stops := [], saveWrites := [(player, none, false)] })
  | .Quit => (.ok (.Submit (.Shutdown false)), player, Effects.empty)
  | .Prompt => (RuntimeCommand.prompt resources inp.choice inp.choice2, player, Effects.empty)
  | .Notes => (RuntimeCommand.notes player, player, Effects.empty)
  | .Variables => (RuntimeCommand.showVariables player, player, Effects.empty)

/-- `RuntimeCommand::run`: the permission gate, then handler dispatch. -/
def RuntimeCommand.run (cmd : RuntimeCommand) (config : Manifest) (player : Player)
    (saves : SaveManager) (resources : Resources) (inp : UserInput) :
    Except Failure CommandResult × Player × Effects :=
  if !cmd.is_normal && !config.settings.debug then
    (.error (.err "Unable to access debug commands"), player, Effects.empty)
  else
    cmd.dispatch player saves resources inp

/-- The cumulative effect of `soundLoop` on the enabled-channel set over a
list of processed channels. -/
def applyChannelUpdates (sel : List String) (chans : List String) (keys : List String) :
    List String :=
  keys.foldl (fun acc c => if c ∈ sel then setInsert acc c else setRemove acc c) chans

/-- A sample session used to instantiate the theorems. -/
def samplePlayer : Player :=
  { history := ["h1", "h2"], lang := "en", info_pages := ["p"], log := ["entry"],
    channels := [], notes := ["a", "b"], vars := [("x", "1")] }

/-- A sample resource bundle used to instantiate the theorems. -/
def sampleResources : Resources :=
  { translations := ["en"], info_pages := [("p", "content")],
    audio := some ⟨[("a", false)]⟩, prompts := [] }

/-- A sample user selection used to instantiate the theorems. -/
def sampleInput : UserInput :=
  { choice := "en", choice2 := "", index := 0, multi := [] }

theorem chunks5_length (l : List String) : (chunks5 l).length = (l.length + 4) / 5 := by
  induction l using chunks5.induct <;> (simp [chunks5]; try omega)

theorem chunks5_get? (l : List String) (k : Nat) (hk : k < (chunks5 l).length) :
    (chunks5 l).get? k = some ((l.drop (5 * k)).take 5) := by
  induction l using chunks5.induct generalizing k with
  | case1 => simp [chunks5] at hk
  | case2 a =>
    simp only [chunks5, List.length_cons, List.length_nil] at hk
    have hz : k = 0 := by omega
    subst hz; simp [chunks5]
  | case3 a b =>
    simp only [chunks5, List.length_cons, List.length_nil] at hk
    have hz : k = 0 := by omega
    subst hz; simp [chunks5]
  | case4 a b c =>
    simp only [chunks5, List.length_cons, List.length_nil] at hk
    have hz : k = 0 := by omega
    subst hz; simp [chunks5]
  | case5 a b c d =>
    simp only [chunks5, List.length_cons, List.length_nil] at hk
    have hz : k = 0 := by omega
    subst hz; simp [chunks5]
  | case6 a b c d e rest ih =>
    match k with
    | 0 => simp [chunks5]
    | Nat.succ k =>
      have hk' : k < (chunks5 rest).length := by
        simp only [chunks5, List.length_cons] at hk; omega
      have h5 : 5 * (k + 1) = 5 * k + 1 + 1 + 1 + 1 + 1 := by ring
      simp only [chunks5, List.get?_cons_succ]
      rw [ih k hk', h5]
      simp [List.drop_succ_cons]

theorem chunks5_ne_nil (l : List String) (ch : List String) (h : ch ∈ chunks5 l) : ch ≠ [] := by
  induction l using chunks5.induct <;> simp [chunks5] at h <;>
    first
      | (subst h; simp)
      | (rcases h with h | h
         · subst h; simp
         · simp_all)

theorem chunks5_len_le (l : List String) (ch : List String) (h : ch ∈ chunks5 l) :
    ch.length ≤ 5 := by
  induction l using chunks5.induct <;> simp [chunks5] at h <;>
    first
      | (subst h; simp)
      | (rcases h with h | h
         · subst h; simp
         · simp_all)

theorem mem_setInsert (l : List String) (c x : String) :
    x ∈ setInsert l c ↔ x ∈ l ∨ x = c := by
  unfold setInsert
  split <;> simp_all

theorem mem_setRemove (l : List String) (c x : String) :
    x ∈ setRemove l c ↔ x ∈ l ∧ x ≠ c := by
  simp [setRemove, List.mem_filter]

theorem mem_applyChannelUpdates (sel chans keys : List String) (x : String) :
    x ∈ applyChannelUpdates sel chans keys ↔
      (if x ∈ keys then x ∈ sel else x ∈ chans) := by
  induction keys generalizing chans with
  | nil => simp [applyChannelUpdates]
  | cons k rest ih =>
    simp only [applyChannelUpdates, List.foldl_cons] at ih ⊢
    rw [ih]
    by_cases hr : x ∈ rest
    · simp [hr, List.mem_cons]
    · by_cases hk : x = k
      · subst hk
        by_cases hs : x ∈ sel <;>
          simp [hr, hs, mem_setInsert, mem_setRemove]
      · by_cases hs : k ∈ sel <;>
          simp [hr, hk, hs, mem_setInsert, mem_setRemove, List.mem_cons]

theorem soundLoop_ok (getp : String → Except String Bool) (sel : List String)
    (keys : List String) (chans stops : List String)
    (h : ∀ c ∈ keys, c ∉ sel → ∃ b, getp c = .ok b) :
    soundLoop getp sel chans stops keys =
      (.ok (), applyChannelUpdates sel chans keys,
        stops ++ keys.filter (fun c => decide (c ∉ sel))) := by
  induction keys generalizing chans stops with
  | nil => simp [soundLoop, applyChannelUpdates]
  | cons c rest ih =>
    simp only [soundLoop, applyChannelUpdates, List.foldl_cons]
    by_cases hs : c ∈ sel
    · rw [if_pos hs]
      rw [ih (setInsert chans c) stops (fun d hd hnd => h d (List.mem_cons_of_mem c hd) hnd)]
      simp [applyChannelUpdates, hs]
    · rw [if_neg hs]
      obtain ⟨b, hb⟩ := h c (List.mem_cons_self c rest) hs
      rw [hb]
      rw [ih (setRemove chans c) (stops ++ [c])
        (fun d hd hnd => h d (List.mem_cons_of_mem c hd) hnd)]
      simp [applyChannelUpdates, hs]

theorem soundLoop_error (getp : String → Except String Bool) (sel : List String)
    (keys chans stops : List String) (e : String) (chans' stops' : List String)
    (h : soundLoop getp sel chans stops keys = (.error e, chans', stops')) :
    ∃ pre c post, keys = pre ++ c :: post ∧ c ∉ sel ∧ getp c = .error e ∧
      chans' = applyChannelUpdates sel chans (pre ++ [c]) ∧
      stops' = stops ++ pre.filter (fun d => decide (d ∉ sel)) ∧
      (∀ d ∈ pre, d ∈ sel ∨ ∃ b, getp d = .ok b) := by
  induction keys generalizing chans stops with
  | nil => simp [soundLoop] at h
  | cons k rest ih =>
    simp only [soundLoop] at h
    by_cases hs : k ∈ sel
    · rw [if_pos hs] at h
      obtain ⟨pre, c, post, h1, h2, h3, h4, h5, h6⟩ := ih (setInsert chans k) stops h
      refine ⟨k :: pre, c, post, by simp [h1], h2, h3, ?_, ?_, ?_⟩
      · rw [h4]; simp [applyChannelUpdates, hs]
      · rw [h5]; simp [hs]
      · intro d hd
        rcases List.mem_cons.mp hd with hd | hd
        · exact Or.inl (hd ▸ hs)
        · exact h6 d hd
    · rw [if_neg hs] at h
      rcases hg : getp k with e' | b
      · rw [hg] at h
        obtain ⟨h1, h2, h3⟩ : Except.error e' = (Except.error e : Except String Unit)
            ∧ setRemove chans k = chans' ∧ stops = stops' := by
          injection h with ha hb
          injection hb with hb hc
          exact ⟨ha, hb, hc⟩
        refine ⟨[], k, rest, rfl, hs, ?_, ?_, ?_, by simp⟩
        · rw [hg]; injection h1 with h1; rw [h1]
        · rw [← h2]; simp [applyChannelUpdates, hs]
        · rw [← h3]; simp
      · rw [hg] at h
        obtain ⟨pre, c, post, h1, h2, h3, h4, h5, h6⟩ :=
          ih (setRemove chans k) (stops ++ [k]) h
        refine ⟨k :: pre, c, post, by simp [h1], h2, h3, ?_, ?_, ?_⟩
        · rw [h4]; simp [applyChannelUpdates, hs]
        · rw [h5]; simp [hs]
        · intro d hd
          rcases List.mem_cons.mp hd with hd | hd
          · exact Or.inr ⟨b, hd ▸ hg⟩
          · exact h6 d hd

theorem pageLabels_ok (pages : List (List String))
    (h : ∀ ch ∈ pages, ch ≠ [] ∧ 25 ≤ (ch.headD "").length) :
    ∃ labs, pageLabels pages = .ok labs := by
  induction pages with
  | nil => exact ⟨[], rfl⟩
  | cons chunk rest ih =>
    obtain ⟨hne, hlen⟩ := h chunk (List.mem_cons_self chunk rest)
    obtain ⟨labs, hlabs⟩ := ih (fun ch hch => h ch (List.mem_cons_of_mem chunk hch))
    match chunk, hne with
    | e :: tl, _ =>
      simp only [List.headD_cons] at hlen
      refine ⟨(e.take 25 ++ "...") :: labs, ?_⟩
      simp only [pageLabels, if_pos hlen, hlabs]

theorem find?_ok_of_mem_keys (ps : List (String × Bool)) (c : String)
    (h : c ∈ ps.map Prod.fst) : ∃ nb, ps.find? (fun x => x.1 == c) = some nb := by
  induction ps with
  | nil => simp at h
  | cons p tl ih =>
    by_cases hp : p.1 == c
    · exact ⟨p, by simp [List.find?, hp]⟩
    · simp only [List.map_cons, List.mem_cons] at h
      rcases h with h | h
      · exact absurd (by simp [h] : (p.1 == c) = true) (by simpa using hp)
      · obtain ⟨nb, hnb⟩ := ih h
        exact ⟨nb, by simp [List.find?, hp, hnb]⟩

theorem get_player_ok (a : Audio) (c : String) (h : c ∈ a.keys) :
    ∃ b, a.get_player c = .ok b := by
  obtain ⟨nb, hnb⟩ := find?_ok_of_mem_keys a.players c h
  exact ⟨nb.2, by simp [Audio.get_player, hnb]⟩

/-- C1: for every debug-only tag (Prompt, Notes, Variables), `run` with the
manifest's debug flag false fails with the PermissionDenied error before any
handler runs, leaving the session unchanged and producing no collaborator
effect; for every normal tag (Back, Lang, Info, Log, Sound, Save, Quit) the
gate never blocks and `run` is exactly handler dispatch, whatever the debug
flag. -/
theorem run_permission_gate (cmd : RuntimeCommand) (config : Manifest) (player : Player)
    (saves : SaveManager) (resources : Resources) (inp : UserInput) :
    (cmd.is_normal = false → config.settings.debug = false →
      cmd.run config player saves resources inp =
        (.error (.err "Unable to access debug commands"), player, Effects.empty)) ∧
    (cmd.is_normal = true →
      cmd.run config player saves resources inp = cmd.dispatch player saves resources inp) ∧
    (RuntimeCommand.Prompt.is_normal = false ∧ RuntimeCommand.Notes.is_normal = false ∧
      RuntimeCommand.Variables.is_normal = false ∧ RuntimeCommand.Back.is_normal = true ∧
      RuntimeCommand.Lang.is_normal = true ∧ RuntimeCommand.Info.is_normal = true ∧
      RuntimeCommand.Log.is_normal = true ∧ RuntimeCommand.Sound.is_normal = true ∧
      RuntimeCommand.Save.is_normal = true ∧ RuntimeCommand.Quit.is_normal = true) := by
  refine ⟨?_, ?_, by decide⟩
  · intro h1 h2
    simp [RuntimeCommand.run, h1, h2]
  · intro h1
    simp [RuntimeCommand.run, h1]

/-- C1 witness at concrete inputs: Notes is blocked with debug off and the
session survives unchanged; Back is never gated. -/
theorem run_permission_gate_witness :
    RuntimeCommand.Notes.run ⟨⟨false⟩⟩ samplePlayer ⟨none⟩ sampleResources sampleInput =
      (.error (.err "Unable to access debug commands"), samplePlayer, Effects.empty) ∧
    RuntimeCommand.Back.run ⟨⟨false⟩⟩ samplePlayer ⟨none⟩ sampleResources sampleInput =
      RuntimeCommand.Back.dispatch samplePlayer ⟨none⟩ sampleResources sampleInput :=
  ⟨(run_permission_gate .Notes ⟨⟨false⟩⟩ samplePlayer ⟨none⟩ sampleResources
      sampleInput).1 rfl rfl,
   (run_permission_gate .Back ⟨⟨false⟩⟩ samplePlayer ⟨none⟩ sampleResources
      sampleInput).2.1 rfl⟩

/-- C4: Back with history length at most one fails with the CommandFailed
message and leaves the session unchanged; with length at least two it pops
exactly one history entry, leaves every other field unchanged, and yields
Submit(Continue). -/
theorem back_pops_one (p : Player) :
    (p.history.length ≤ 1 →
      RuntimeCommand.back p = (.error (.err "Can't go back right now!"), p)) ∧
    (2 ≤ p.history.length →
      RuntimeCommand.back p =
        (.ok (.Submit .Continue), { p with history := p.history.dropLast }) ∧
      (p.history.dropLast).length = p.history.length - 1) := by
  constructor
  · intro h
    simp [RuntimeCommand.back, h]
  · intro h
    refine ⟨?_, List.length_dropLast p.history⟩
    unfold RuntimeCommand.back
    rw [if_neg (by omega)]
    rfl

/-- C4 witness: with a two-entry history Back pops the last entry; with an
empty history it fails and the session is untouched. -/
theorem back_pops_one_witness :
    RuntimeCommand.back samplePlayer =
      (.ok (.Submit .Continue), { samplePlayer with history := ["h1"] }) ∧
    RuntimeCommand.back { samplePlayer with history := [] } =
      (.error (.err "Can't go back right now!"), { samplePlayer with history := [] }) :=
  ⟨((back_pops_one samplePlayer).2 (by decide)).1,
   (back_pops_one { samplePlayer with history := [] }).1 (by decide)⟩

/-- C7: whenever Save dispatches it invokes the Save Manager's write exactly
once, with the session, no slot override, and silent=false; a successful
write yields Output("Saving... ") with its trailing space, and a failing
write propagates the error unchanged with no Output, the session untouched
either way. -/
theorem save_writes_once (config : Manifest) (player : Player) (saves : SaveManager)
    (resources : Resources) (inp : UserInput) :
    (saves.writeErr = none →
      RuntimeCommand.Save.run config player saves resources inp =
        (.ok (.Output "Saving... "), player,
          { stops := [], saveWrites := [(player, none, false)] })) ∧
    (∀ e, saves.writeErr = some e →
      RuntimeCommand.Save.run config player saves resources inp =
        (.error (.err e), player,
          { stops := [], saveWrites := [(player, none, false)] })) := by
  constructor
  · intro h
    simp [RuntimeCommand.run, RuntimeCommand.dispatch, RuntimeCommand.is_normal,
      SaveManager.write, h]
  · intro e h
    simp [RuntimeCommand.run, RuntimeCommand.dispatch, RuntimeCommand.is_normal,
      SaveManager.write, h]

/-- C7 witness: a succeeding and a failing save at concrete inputs. -/
theorem save_writes_once_witness :
    RuntimeCommand.Save.run ⟨⟨false⟩⟩ samplePlayer ⟨none⟩ sampleResources sampleInput =
      (.ok (.Output "Saving... "), samplePlayer,
        { stops := [], saveWrites := [(samplePlayer, none, false)] }) ∧
    RuntimeCommand.Save.run ⟨⟨false⟩⟩ samplePlayer ⟨some "disk full"⟩ sampleResources
        sampleInput =
      (.error (.err "disk full"), samplePlayer,
        { stops := [], saveWrites := [(samplePlayer, none, false)] }) :=
  ⟨(save_writes_once ⟨⟨false⟩⟩ samplePlayer ⟨none⟩ sampleResources sampleInput).1 rfl,
   (save_writes_once ⟨⟨false⟩⟩ samplePlayer ⟨some "disk full"⟩ sampleResources
      sampleInput).2 "disk full" rfl⟩

/-- C8: Quit always yields Submit(Shutdown(false)), leaves the session
unchanged and produces no collaborator effect, for every session state and
debug setting. -/
theorem quit_shutdown (config : Manifest) (player : Player) (saves : SaveManager)
    (resources : Resources) (inp : UserInput) :
    RuntimeCommand.Quit.run config player saves resources inp =
      (.ok (.Submit (.Shutdown false)), player, Effects.empty) := rfl

/-- C9: Variables with an empty variable map fails with CommandFailed; with a
non-empty map it outputs each entry as "name: value", one entry per line
joined by newlines, prefixed with a leading blank line; on the single-entry
map x maps-to 1 it outputs "\nx: 1". -/
theorem variables_output (p : Player) :
    (p.vars = [] → RuntimeCommand.showVariables p = .error (.err "No variables applied")) ∧
    (p.vars ≠ [] →
      RuntimeCommand.showVariables p =
        .ok (.Output ("\n" ++ String.intercalate "\n"
          (p.vars.map fun nv => nv.1 ++ ": " ++ nv.2)))) ∧
    RuntimeCommand.showVariables samplePlayer = .ok (.Output "\nx: 1") := by
  refine ⟨?_, ?_, by rfl⟩
  · intro h
    simp [RuntimeCommand.showVariables, h]
  · intro h
    simp [RuntimeCommand.showVariables, List.isEmpty_iff, h]

/-- C9 witness: the empty and the singleton variable map at concrete
sessions. -/
theorem variables_output_witness :
    RuntimeCommand.showVariables { samplePlayer with vars := [] } =
      .error (.err "No variables applied") ∧
    RuntimeCommand.showVariables samplePlayer = .ok (.Output "\nx: 1") :=
  ⟨(variables_output { samplePlayer with vars := [] }).1 rfl,
   (variables_output samplePlayer).2.2⟩

theorem log_eq_output (l : List String) (k : Nat) (hne : l ≠ [])
    (hlab : ∀ ch ∈ chunks5 l, 25 ≤ (ch.headD "").length)
    (hk : k < (chunks5 l).length) :
    RuntimeCommand.log l k =
      .ok (.Output ("\n" ++ String.intercalate "\n\n" ((l.drop (5 * k)).take 5))) := by
  have hie : l.isEmpty = false := by
    cases l
    · exact absurd rfl hne
    · rfl
  obtain ⟨labs, hlabs⟩ := pageLabels_ok (chunks5 l)
    (fun ch hch => ⟨chunks5_ne_nil l ch hch, hlab ch hch⟩)
  simp only [RuntimeCommand.log, hie, Bool.false_eq_true, if_false, hlabs,
    chunks5_get? l k hk]

/-- C2 counterexample: with a single known channel "a" that is not playing,
not previously enabled and not selected, the handler nevertheless invokes
stop() on it — against the claim that channels neither previously enabled
nor selected are untouched and that stop is only invoked on a deselected
channel that is currently playing. -/
theorem sound_counterexample :
    (RuntimeCommand.sound samplePlayer (some ⟨[("a", false)]⟩) []).2.2.stops = ["a"] ∧
    "a" ∉ samplePlayer.channels ∧
    Audio.get_player ⟨[("a", false)]⟩ "a" = .ok false ∧
    (RuntimeCommand.sound samplePlayer (some ⟨[("a", false)]⟩) []).1 =
      .ok (.Submit (.Retry true)) :=
  ⟨rfl, by decide, rfl, rfl⟩

/-- C2 (amended): after Sound returns successfully with a selected set S,
every channel known to the audio map is in the session's enabled set exactly
when it is in S, channels unknown to the audio map keep their prior
membership, stop() is invoked exactly once on every audio-map channel not in
S — regardless of prior membership or playing state — and never on a
selected channel, and every other session field is unchanged. -/
theorem sound_channel_sync (p : Player) (a : Audio) (sel : List String)
    (hnd : a.keys.Nodup) :
    ∃ p' eff, RuntimeCommand.sound p (some a) sel =
        (.ok (.Submit (.Retry true)), p', eff) ∧
      (∀ c ∈ a.keys, (c ∈ p'.channels ↔ c ∈ sel)) ∧
      (∀ c, c ∉ a.keys → (c ∈ p'.channels ↔ c ∈ p.channels)) ∧
      (∀ c, eff.stops.count c = if c ∈ a.keys ∧ c ∉ sel then 1 else 0) ∧
      eff.saveWrites = [] ∧
      p'.history = p.history ∧ p'.lang = p.lang ∧ p'.info_pages = p.info_pages ∧
      p'.log = p.log ∧ p'.notes = p.notes ∧ p'.vars = p.vars := by
  have hloop := soundLoop_ok a.get_player sel a.keys p.channels []
    (fun c hc _ => get_player_ok a c hc)
  refine ⟨{ p with channels := applyChannelUpdates sel p.channels a.keys },
    { stops := a.keys.filter (fun c => decide (c ∉ sel)), saveWrites := [] },
    ?_, ?_, ?_, ?_, rfl, rfl, rfl, rfl, rfl, rfl, rfl⟩
  · simp only [RuntimeCommand.sound, soundCore, hloop, CommandResult.retry,
      List.nil_append]
  · intro c hc
    show c ∈ applyChannelUpdates sel p.channels a.keys ↔ c ∈ sel
    rw [mem_applyChannelUpdates]
    simp [hc]
  · intro c hc
    show c ∈ applyChannelUpdates sel p.channels a.keys ↔ c ∈ p.channels
    rw [mem_applyChannelUpdates]
    simp [hc]
  · intro c
    by_cases h1 : c ∈ a.keys ∧ c ∉ sel
    · rw [if_pos h1]
      have hmem : c ∈ a.keys.filter (fun c => decide (c ∉ sel)) := by
        simp [List.mem_filter, h1.1, h1.2]
      exact List.count_eq_one_of_mem (hnd.filter _) hmem
    · rw [if_neg h1]
      refine List.count_eq_zero.mpr ?_
      intro hmem
      rw [List.mem_filter] at hmem
      exact h1 ⟨hmem.1, by simpa using hmem.2⟩

/-- C2 witness: one playing enabled channel "m" deselected and one new
channel "s" selected. -/
theorem sound_channel_sync_witness :
    ∃ p' eff, RuntimeCommand.sound { samplePlayer with channels := ["m"] }
        (some ⟨[("m", true), ("s", false)]⟩) ["s"] =
        (.ok (.Submit (.Retry true)), p', eff) ∧
      (∀ c ∈ (⟨[("m", true), ("s", false)]⟩ : Audio).keys,
        (c ∈ p'.channels ↔ c ∈ ["s"])) ∧
      (∀ c, c ∉ (⟨[("m", true), ("s", false)]⟩ : Audio).keys →
        (c ∈ p'.channels ↔ c ∈ ({ samplePlayer with channels := ["m"] } : Player).channels)) ∧
      (∀ c, eff.stops.count c =
        if c ∈ (⟨[("m", true), ("s", false)]⟩ : Audio).keys ∧ c ∉ ["s"] then 1 else 0) ∧
      eff.saveWrites = [] ∧
      p'.history = samplePlayer.history ∧ p'.lang = samplePlayer.lang ∧
      p'.info_pages = samplePlayer.info_pages ∧ p'.log = samplePlayer.log ∧
      p'.notes = samplePlayer.notes ∧ p'.vars = samplePlayer.vars :=
  sound_channel_sync { samplePlayer with channels := ["m"] }
    ⟨[("m", true), ("s", false)]⟩ ["s"] (by decide)

/-- C3 counterexample: the Output text carries a leading newline that the
claim omits, and a log entry shorter than 25 bytes makes the handler panic
instead of producing the claimed Output. -/
theorem log_claim_counterexample :
    RuntimeCommand.log ["abcdefghijklmnopqrstuvwxy"] 0 ≠
      .ok (.Output "abcdefghijklmnopqrstuvwxy") ∧
    RuntimeCommand.log ["abcdefghijklmnopqrstuvwxy"] 0 =
      .ok (.Output "\nabcdefghijklmnopqrstuvwxy") ∧
    RuntimeCommand.log ["a"] 0 = .error (.panicked "byte index 25 is out of bounds") := by
  have heq : RuntimeCommand.log ["abcdefghijklmnopqrstuvwxy"] 0 =
      .ok (.Output "\nabcdefghijklmnopqrstuvwxy") := rfl
  refine ⟨?_, heq, rfl⟩
  rw [heq]
  intro h
  injection h with h
  injection h with h
  exact absurd h (by decide)

/-- C3 (amended): for a non-empty log in which each page's first entry is at
least 25 bytes (so the label slice is in range), the handler partitions the
N entries into ceil(N/5) pages of at most 5 entries each in order, and
selecting page k yields Output of a leading newline followed by
entries[5k .. min(N, 5k+5)] joined by blank-line separators; with an empty
log it fails with CommandFailed("No log entries to display"). -/
theorem log_pages (l : List String) (k : Nat) (hne : l ≠ [])
    (hlab : ∀ ch ∈ chunks5 l, 25 ≤ (ch.headD "").length)
    (hk : k < (chunks5 l).length) :
    (chunks5 l).length = (l.length + 4) / 5 ∧
    (∀ ch ∈ chunks5 l, ch.length ≤ 5) ∧
    RuntimeCommand.log l k =
      .ok (.Output ("\n" ++ String.intercalate "\n\n" ((l.drop (5 * k)).take 5))) ∧
    RuntimeCommand.log [] 0 = .error (.err "No log entries to display") :=
  ⟨chunks5_length l, fun ch hch => chunks5_len_le l ch hch,
    log_eq_output l k hne hlab hk, rfl⟩

/-- C3 witness: a one-page log whose entry is exactly 25 bytes. -/
theorem log_pages_witness :
    (chunks5 ["abcdefghijklmnopqrstuvwxy"]).length = (1 + 4) / 5 ∧
    (∀ ch ∈ chunks5 ["abcdefghijklmnopqrstuvwxy"], ch.length ≤ 5) ∧
    RuntimeCommand.log ["abcdefghijklmnopqrstuvwxy"] 0 =
      .ok (.Output ("\n" ++ String.intercalate "\n\n"
        ((["abcdefghijklmnopqrstuvwxy"].drop (5 * 0)).take 5))) ∧
    RuntimeCommand.log [] 0 = .error (.err "No log entries to display") :=
  log_pages ["abcdefghijklmnopqrstuvwxy"] 0 (by decide) (by decide) (by decide)

/-- C5: the Sound handler is not atomic on failure. If the `get_player`
lookup fails at a later channel, `soundCore` returns the error while the
session's channel set already carries every insertion and removal applied
for the earlier channels (and the removal of the failing one) — there is no
rollback, and the stop trace keeps the earlier stops. -/
theorem sound_no_rollback (getp : String → Except String Bool) (p : Player)
    (keys sel : List String) (e : String) (p' : Player) (eff : Effects)
    (h : soundCore getp p keys sel = (.error (.err e), p', eff)) :
    ∃ pre c post, keys = pre ++ c :: post ∧ c ∉ sel ∧ getp c = .error e ∧
      p' = { p with channels := applyChannelUpdates sel p.channels (pre ++ [c]) } ∧
      eff.stops = pre.filter (fun d => decide (d ∉ sel)) ∧
      (∀ d ∈ pre, d ∈ sel ∨ ∃ b, getp d = .ok b) := by
  unfold soundCore at h
  rcases hloop : soundLoop getp sel p.channels [] keys with ⟨res, chans, stops⟩
  rw [hloop] at h
  cases res with
  | ok u => simp at h
  | error e' =>
    simp only [Prod.mk.injEq] at h
    obtain ⟨he, hp, heff⟩ := h
    have he' : e' = e := by
      injection he with hh
      injection hh with hh
    subst he'
    subst hp
    subst heff
    obtain ⟨pre, c, post, h1, h2, h3, h4, h5, h6⟩ :=
      soundLoop_error getp sel keys p.channels [] e' chans stops hloop
    refine ⟨pre, c, post, h1, h2, h3, ?_, ?_, h6⟩
    · rw [h4]
    · rw [h5]; simp

/-- C5 witness: channels ["a", "b"], nothing selected, and a lookup that
fails on "b": the error is reported with "a"'s removal and stop already
committed. -/
theorem sound_no_rollback_witness :
    ∃ pre c post, (["a", "b"] : List String) = pre ++ c :: post ∧
      c ∉ ([] : List String) ∧
      (fun d => if d == "b" then (.error "missing audio channel" : Except String Bool)
        else .ok false) c = .error "missing audio channel" ∧
      ({ samplePlayer with channels := [] } : Player) =
        { { samplePlayer with channels := ["a"] } with
            channels := applyChannelUpdates []
              ({ samplePlayer with channels := ["a"] } : Player).channels (pre ++ [c]) } ∧
      (["a"] : List String) = pre.filter (fun d => decide (d ∉ ([] : List String))) ∧
      (∀ d ∈ pre, d ∈ ([] : List String) ∨ ∃ b,
        (fun d => if d == "b" then (.error "missing audio channel" : Except String Bool)
          else .ok false) d = .ok b) :=
  sound_no_rollback
    (fun d => if d == "b" then .error "missing audio channel" else .ok false)
    { samplePlayer with channels := ["a"] } ["a", "b"] [] "missing audio channel"
    { samplePlayer with channels := [] } ⟨["a"], []⟩ rfl

/-- C6: the Log page labels take the fixed 25-byte prefix of each page's
first entry plus "..."; when every page's first entry is at least 25 bytes
the label computation is in bounds and the handler (with an in-range page
selection) does not panic, while a page whose first entry is shorter makes
the slice out of range and the handler partial: on ["a"] it panics. -/
theorem log_label_bounds (l : List String) (k : Nat) (hne : l ≠ [])
    (hlab : ∀ ch ∈ chunks5 l, 25 ≤ (ch.headD "").length)
    (hk : k < (chunks5 l).length) :
    (∃ labs, pageLabels (chunks5 l) = .ok labs) ∧
    (∀ m, RuntimeCommand.log l k ≠ .error (.panicked m)) ∧
    RuntimeCommand.log ["a"] 0 = .error (.panicked "byte index 25 is out of bounds") := by
  refine ⟨pageLabels_ok (chunks5 l)
    (fun ch hch => ⟨chunks5_ne_nil l ch hch, hlab ch hch⟩), ?_, rfl⟩
  intro m hcontra
  rw [log_eq_output l k hne hlab hk] at hcontra
  exact absurd hcontra (by simp)

/-- C6 witness: a log with one 25-byte entry. -/
theorem log_label_bounds_witness :
    (∃ labs, pageLabels (chunks5 ["abcdefghijklmnopqrstuvwxy"]) = .ok labs) ∧
    (∀ m, RuntimeCommand.log ["abcdefghijklmnopqrstuvwxy"] 0 ≠ .error (.panicked m)) ∧
    RuntimeCommand.log ["a"] 0 = .error (.panicked "byte index 25 is out of bounds") :=
  log_label_bounds ["abcdefghijklmnopqrstuvwxy"] 0 (by decide) (by decide) (by decide)

/-- C10: every handler that returns a Retry loop signal — Lang, Info, and
Sound on success — returns Submit(Retry(true)): the retry flag accompanying
the signal is always true, never false. -/
theorem retry_always_true (p q : Player) (translations : List String) (lc ic : String)
    (unlocked : List String) (pages : List (String × String))
    (audio_res : Option Audio) (sel : List String) :
    CommandResult.retry = .Submit (.Retry true) ∧
    (∀ r, (RuntimeCommand.lang p translations lc).1 = .ok r →
      r = .Submit (.Retry true)) ∧
    (∀ r, RuntimeCommand.info unlocked pages ic = .ok r →
      r = .Submit (.Retry true)) ∧
    (∀ r, (RuntimeCommand.sound q audio_res sel).1 = .ok r →
      r = .Submit (.Retry true)) := by
  refine ⟨rfl, ?_, ?_, ?_⟩
  · intro r h
    unfold RuntimeCommand.lang at h
    split at h <;> simp_all [CommandResult.retry]
  · intro r h
    unfold RuntimeCommand.info at h
    split at h
    · simp at h
    · split at h <;> simp_all [CommandResult.retry]
  · intro r h
    unfold RuntimeCommand.sound at h
    split at h
    · simp at h
    · unfold soundCore at h
      split at h <;> simp_all [CommandResult.retry]

/-- C10 witness: a successful Lang, Info and Sound each yield
Submit(Retry(true)). -/
theorem retry_always_true_witness :
    (RuntimeCommand.lang samplePlayer ["en"] "en").1 = .ok (.Submit (.Retry true)) ∧
    RuntimeCommand.info ["p"] [("p", "content")] "p" = .ok (.Submit (.Retry true)) ∧
    (RuntimeCommand.sound samplePlayer (some ⟨[("a", false)]⟩) ["a"]).1 =
      .ok (.Submit (.Retry true)) := by
  have h := retry_always_true samplePlayer samplePlayer ["en"] "en" "p" ["p"]
    [("p", "content")] (some ⟨[("a", false)]⟩) ["a"]
  refine ⟨?_, ?_, ?_⟩
  · exact (h.2.1 CommandResult.retry rfl) ▸
      (rfl : (RuntimeCommand.lang samplePlayer ["en"] "en").1 = .ok CommandResult.retry)
  · exact (h.2.2.1 CommandResult.retry rfl) ▸
      (rfl : RuntimeCommand.info ["p"] [("p", "content")] "p" = .ok CommandResult.retry)
  · exact (h.2.2.2 CommandResult.retry rfl) ▸
      (rfl : (RuntimeCommand.sound samplePlayer (some ⟨[("a", false)]⟩) ["a"]).1 =
        .ok CommandResult.retry)

end Nage
